import Mathlib

/-!
Shallow embedding of the sticker-bot conversion-and-cache pipeline.

Source files embedded here:
* `src/unnamed/part_002` — `WebmHandler` (md5 key derivation, cache probe,
  download, ffmpeg frame extraction, gifski encoding, cleanup);
* `src/src/handler_tgs.js` — `TgsHandler` (download, gunzip + JSON parse,
  headless DOM globals, lottie frame stepping loop, gifski, cleanup,
  null-on-failure policy);
* `src/src/handler_static.js` — `StaticHandler` (URL format sniff for the
  temporary filename, ffmpeg resize to a fixed webp artifact);
* `src/cache_manager.js` is required by the bot entry point but its source is
  not part of the snapshot; the eviction sweep below is modelled from the
  specification text instead (see `sweepCache`).

External effects (axios download, child_process exec, filesystem) are made
explicit: each handler becomes a function from an environment (which records
whether each external step succeeds) and a filesystem state to an outcome
carrying the returned value, the final filesystem, and counters for the
download and external-process invocations that were performed.
-/

set_option maxRecDepth 100000

namespace StickerBot

/-! ### MD5 (crypto.createHash('md5').update(input).digest('hex'))

All three handlers derive cache keys with node's md5 hex digest.  The digest
is computed here from scratch (RFC 1321) on the UTF-8 bytes of the input
string; all word arithmetic is `Nat` taken mod 2^32. -/

/-- UTF-8 encoding of one Unicode code point as a list of byte values. -/
def utf8Bytes (c : Nat) : List Nat :=
  if c < 0x80 then [c]
  else if c < 0x800 then [0xC0 + c / 64, 0x80 + c % 64]
  else if c < 0x10000 then
    [0xE0 + c / 4096, 0x80 + (c / 64) % 64, 0x80 + c % 64]
  else
    [0xF0 + c / 262144, 0x80 + (c / 4096) % 64, 0x80 + (c / 64) % 64, 0x80 + c % 64]

/-- UTF-8 bytes of a string, the byte sequence node feeds to the md5 hash. -/
def strBytes (s : String) : List Nat :=
  (s.toList.map (fun c => utf8Bytes c.toNat)).flatten

/-- The 64 MD5 sine-table constants `floor(abs(sin(i+1)) * 2^32)`. -/
def md5K : List Nat :=
  [0xd76aa478, 0xe8c7b756, 0x242070db, 0xc1bdceee,
   0xf57c0faf, 0x4787c62a, 0xa8304613, 0xfd469501,
   0x698098d8, 0x8b44f7af, 0xffff5bb1, 0x895cd7be,
   0x6b901122, 0xfd987193, 0xa679438e, 0x49b40821,
   0xf61e2562, 0xc040b340, 0x265e5a51, 0xe9b6c7aa,
   0xd62f105d, 0x02441453, 0xd8a1e681, 0xe7d3fbc8,
   0x21e1cde6, 0xc33707d6, 0xf4d50d87, 0x455a14ed,
   0xa9e3e905, 0xfcefa3f8, 0x676f02d9, 0x8d2a4c8a,
   0xfffa3942, 0x8771f681, 0x6d9d6122, 0xfde5380c,
   0xa4beea44, 0x4bdecfa9, 0xf6bb4b60, 0xbebfbc70,
   0x289b7ec6, 0xeaa127fa, 0xd4ef3085, 0x04881d05,
   0xd9d4d039, 0xe6db99e5, 0x1fa27cf8, 0xc4ac5665,
   0xf4292244, 0x432aff97, 0xab9423a7, 0xfc93a039,
   0x655b59c3, 0x8f0ccc92, 0xffeff47d, 0x85845dd1,
   0x6fa87e4f, 0xfe2ce6e0, 0xa3014314, 0x4e0811a1,
   0xf7537e82, 0xbd3af235, 0x2ad7d2bb, 0xeb86d391]

/-- Per-round left-rotation amounts of MD5. -/
def md5S : List Nat :=
  [7, 12, 17, 22, 7, 12, 17, 22, 7, 12, 17, 22, 7, 12, 17, 22,
   5, 9, 14, 20, 5, 9, 14, 20, 5, 9, 14, 20, 5, 9, 14, 20,
   4, 11, 16, 23, 4, 11, 16, 23, 4, 11, 16, 23, 4, 11, 16, 23,
   6, 10, 15, 21, 6, 10, 15, 21, 6, 10, 15, 21, 6, 10, 15, 21]

/-- 32-bit truncation. -/
def m32 (x : Nat) : Nat := x % 4294967296

/-- 32-bit bitwise complement (inputs are kept below 2^32). -/
def not32 (x : Nat) : Nat := Nat.xor x 4294967295

/-- 32-bit left rotation. -/
def rotl32 (x s : Nat) : Nat :=
  m32 (Nat.lor (m32 (x <<< s)) (x >>> (32 - s)))

/-- First `n` little-endian bytes of `x`. -/
def leBytes (n x : Nat) : List Nat :=
  (List.range n).map (fun i => (x / 256 ^ i) % 256)

/-- RFC 1321 padding: append `0x80`, zero bytes up to 56 mod 64, then the
original bit length as 8 little-endian bytes. -/
def md5Pad (msg : List Nat) : List Nat :=
  let r := msg.length % 64
  let padLen := (119 - r) % 64 + 1
  msg ++ (0x80 :: List.replicate (padLen - 1) 0) ++ leBytes 8 ((msg.length * 8) % 2 ^ 64)

/-- The sixteen 32-bit little-endian message words of one 64-byte chunk. -/
def chunkWords (chunk : List Nat) : List Nat :=
  (List.range 16).map (fun j =>
    (chunk.getD (4 * j) 0) + (chunk.getD (4 * j + 1) 0) * 256 +
    (chunk.getD (4 * j + 2) 0) * 65536 + (chunk.getD (4 * j + 3) 0) * 16777216)

/-- One MD5 round `i` (0 ≤ i < 64) acting on the state `(a, b, c, d)`. -/
def md5Round (M : List Nat) (st : Nat × Nat × Nat × Nat) (i : Nat) :
    Nat × Nat × Nat × Nat :=
  let (a, b, c, d) := st
  let fg : Nat × Nat :=
    if i < 16 then (Nat.lor (Nat.land b c) (Nat.land (not32 b) d), i)
    else if i < 32 then (Nat.lor (Nat.land d b) (Nat.land (not32 d) c), (5 * i + 1) % 16)
    else if i < 48 then (Nat.xor (Nat.xor b c) d, (3 * i + 5) % 16)
    else (Nat.xor c (Nat.lor b (not32 d)), (7 * i) % 16)
  let f := m32 (fg.1 + a + md5K.getD i 0 + M.getD fg.2 0)
  (d, m32 (b + rotl32 f (md5S.getD i 0)), b, c)

/-- Process one 64-byte chunk, updating the four-word digest state. -/
def md5Chunk (st : Nat × Nat × Nat × Nat) (chunk : List Nat) :
    Nat × Nat × Nat × Nat :=
  let (a0, b0, c0, d0) := st
  let M := chunkWords chunk
  let (a, b, c, d) := (List.range 64).foldl (md5Round M) (a0, b0, c0, d0)
  (m32 (a0 + a), m32 (b0 + b), m32 (c0 + c), m32 (d0 + d))

/-- Split a padded message (whose length is a multiple of 64) into its
64-byte chunks. -/
def md5Chunks (msg : List Nat) : List (List Nat) :=
  (List.range (msg.length / 64)).map (fun i => (msg.drop (64 * i)).take 64)

/-- MD5 digest of a byte sequence, as its 16 bytes. -/
def md5Bytes (msg : List Nat) : List Nat :=
  let (a, b, c, d) :=
    (md5Chunks (md5Pad msg)).foldl md5Chunk
      (0x67452301, 0xefcdab89, 0x98badcfe, 0x10325476)
  leBytes 4 a ++ leBytes 4 b ++ leBytes 4 c ++ leBytes 4 d

/-- One lowercase hex digit. -/
def hexDigit : Nat → Char
  | 0 => '0'
  | 1 => '1'
  | 2 => '2'
  | 3 => '3'
  | 4 => '4'
  | 5 => '5'
  | 6 => '6'
  | 7 => '7'
  | 8 => '8'
  | 9 => '9'
  | 10 => 'a'
  | 11 => 'b'
  | 12 => 'c'
  | 13 => 'd'
  | 14 => 'e'
  | _ => 'f'

/-- Two hex digits of one byte. -/
def byteHex (b : Nat) : List Char :=
  [hexDigit (b / 16), hexDigit (b % 16)]

/-- Hex MD5 digest of the UTF-8 bytes of `s`, that is
`crypto.createHash('md5').update(s).digest('hex')`, as used by `generateHash`
in all three handlers. -/
def md5Hex (s : String) : String :=
  String.mk ((md5Bytes (strBytes s)).map byteHex).flatten

example : md5Hex "abc123" = "e99a18c428cb38d5f260853678922e03" := by decide
example : md5Hex "" = "d41d8cd98f00b204e9800998ecf8427e" := by decide

/-! ### Filesystem model

The handlers manipulate paths built with `path.join` from two fixed roots:
the flat cache directory `gif-cache` and the workspace root `temp` (each
handler's constructor, e.g. part_002 lines 9-10).  Paths are represented
structurally so that path identity mirrors the `path.join` structure; a
filesystem state is the list of paths that currently exist. -/

/-- Root of the flat artifact cache, `path.join(__dirname, '..', 'gif-cache')`
(the common `__dirname/..` prefix is elided). -/
def cacheDir : String := "gif-cache"

/-- Root of the shared temp workspace, `path.join(__dirname, '..', 'temp')`. -/
def tempDir : String := "temp"

/-- Paths the conversion pipeline touches: a file in the cache directory, a
file directly in the temp directory, a per-conversion subdirectory of the
temp directory, or a file inside such a subdirectory. -/
inductive FPath where
  | cacheFile (name : String)
  | tempFile (name : String)
  | tempSub (dir : String)
  | tempSubFile (dir name : String)
deriving DecidableEq, Repr

/-- String form of a path, as `path.join` builds it in the source. -/
def FPath.str : FPath → String
  | .cacheFile n => cacheDir ++ "/" ++ n
  | .tempFile n => tempDir ++ "/" ++ n
  | .tempSub d => tempDir ++ "/" ++ d
  | .tempSubFile d n => tempDir ++ "/" ++ d ++ "/" ++ n

/-- A filesystem state: the list of existing paths. -/
abbrev FS := List FPath

/-- Existence probe, `fs.access` succeeding. -/
def FS.has (fs : FS) (p : FPath) : Bool := fs.contains p

/-- Create a file or directory (idempotent, like `{ recursive: true }`). -/
def FS.add (fs : FS) (p : FPath) : FS :=
  if fs.contains p then fs else p :: fs

/-- Remove a path; on a missing path this is a no-op, matching the
`…catch(() => {})` unlink pattern used throughout the handlers. -/
def FS.del (fs : FS) (p : FPath) : FS := fs.filter (fun q => q != p)

/-- Test whether a path is a file inside the temp subdirectory `d`. -/
def inDir (d : String) : FPath → Bool
  | .tempSubFile d' _ => d' == d
  | _ => false

/-- Listing of the files in temp subdirectory `d` (`fs.readdir`); if the
directory does not exist the source catches the error and supplies `[]`,
which coincides with this filter being empty. -/
def readdirDir (fs : FS) (d : String) : List FPath := fs.filter (inDir d)

/-- Unlink every path in the list, the per-file cleanup loops of the
handlers. -/
def unlinkAll (fs : FS) (l : List FPath) : FS := l.foldl FS.del fs

/-- Remove temp subdirectory `d` with errors swallowed
(`fs.rmdir(dir).catch(() => {})`): it disappears only when it has no
remaining children. -/
def rmdirCatch (fs : FS) (d : String) : FS :=
  if readdirDir fs d = [] then FS.del fs (.tempSub d) else fs

/-- Shared frames-directory cleanup sequence (part_002 lines 90-92,
handler_tgs.js lines 137-141 and 156-160): read the directory, unlink every
file in it, then rmdir it. -/
def cleanupDir (fs : FS) (d : String) : FS :=
  rmdirCatch (unlinkAll fs (readdirDir fs d)) d

/-! ### Shared helper semantics -/

/-- Semantics of the JS expression `fileId || url` (part_002 line 51,
handler_tgs.js line 31): the parameter defaults to `null`, and both `null`
and the empty string are falsy, so the URL is hashed unless a non-empty
`fileId` was passed. -/
def jsOr (fileId : Option String) (url : String) : String :=
  match fileId with
  | some s => if s = "" then url else s
  | none => url

/-- Frame-number formatting `String(n).padStart(4, '0')` (and ffmpeg's
`%04d`). -/
def pad4 (n : Nat) : String :=
  let s := toString n
  String.mk (List.replicate (4 - s.length) '0') ++ s

/-- Add the numbered frame files `frame_<pad4 k>.png` for
`k = start, …, start + n - 1` to temp subdirectory `d`.  The WEBM handler's
ffmpeg pattern `frame_%04d.png` numbers from 1; the TGS loop numbers its
`frameNum` from 0. -/
def writeFrames (fs : FS) (d : String) (start n : Nat) : FS :=
  (List.range n).foldl
    (fun a i => a.add (.tempSubFile d ("frame_" ++ pad4 (start + i) ++ ".png"))) fs

/-- Substring test on character lists, used to model
`String.prototype.includes`. -/
def hasSubList (sub : List Char) : List Char → Bool
  | [] => sub.isEmpty
  | c :: t => sub.isPrefixOf (c :: t) || hasSubList sub t

/-- Semantics of JS `s.includes(sub)`. -/
def strIncludes (s sub : String) : Bool := hasSubList sub.toList s.toList

/-- ASCII lowercase of one character, the fragment of
`String.prototype.toLowerCase` relevant to URLs. -/
def charLower : Char → Char
  | 'A' => 'a' | 'B' => 'b' | 'C' => 'c' | 'D' => 'd' | 'E' => 'e' | 'F' => 'f'
  | 'G' => 'g' | 'H' => 'h' | 'I' => 'i' | 'J' => 'j' | 'K' => 'k' | 'L' => 'l'
  | 'M' => 'm' | 'N' => 'n' | 'O' => 'o' | 'P' => 'p' | 'Q' => 'q' | 'R' => 'r'
  | 'S' => 's' | 'T' => 't' | 'U' => 'u' | 'V' => 'v' | 'W' => 'w' | 'X' => 'x'
  | 'Y' => 'y' | 'Z' => 'z'
  | ch => ch

/-- Semantics of JS `s.toLowerCase()` on ASCII strings such as URLs. -/
def strToLower (s : String) : String := String.mk (s.toList.map charLower)

/-! ### WebmHandler (src/unnamed/part_002) -/

instance : DecidableEq (Except Unit String) := fun a b =>
  match a, b with
  | .error x, .error y => isTrue (by rw [Unit.ext x y])
  | .ok x, .ok y =>
      if h : x = y then isTrue (by rw [h]) else isFalse (by simp [h])
  | .error _, .ok _ => isFalse (by simp)
  | .ok _, .error _ => isFalse (by simp)

/-- External-effect outcomes for one WEBM conversion: whether the axios
download, the ffmpeg frame extraction and the gifski encoding succeed, and
how many frame files a successful extraction writes. -/
structure WebmEnv where
  downloadOk : Bool
  extractOk : Bool
  frameCount : Nat
  encodeOk : Bool
deriving DecidableEq, Repr

/-- Result of a `convertWebmToGif` call: the returned path or the re-raised
error, the final filesystem, and how many downloads and external-process
invocations the call performed. -/
structure WebmOutcome where
  result : Except Unit String
  fs : FS
  downloads : Nat
  execs : Nat
deriving DecidableEq, Repr

namespace WebmHandler

/-- Source part_002 lines 23-25. -/
def generateHash (input : String) : String := md5Hex input

/-- Source part_002 lines 50-104, `convertWebmToGif(webmUrl, fileId = null)`:
derive the key from `fileId || webmUrl`; return the cached path on a cache
hit; otherwise download to `temp/<hash>.webm`, mkdir `temp/webm_<hash>`,
extract frames with ffmpeg, encode `gif-cache/<hash>.gif` with gifski, then
unlink the frames, rmdir the frames directory and unlink the temp download.
The catch block (lines 97-103) unlinks the temp download and the partial
cache file and re-raises; it does not touch the frames directory. -/
def convertWebmToGif (env : WebmEnv) (fs0 : FS) (webmUrl : String)
    (fileId : Option String := none) : WebmOutcome :=
  let hash := generateHash (jsOr fileId webmUrl)
  let cachedGif : FPath := .cacheFile (hash ++ ".gif")
  if fs0.has cachedGif then
    { result := .ok cachedGif.str, fs := fs0, downloads := 0, execs := 0 }
  else
    let tempWebm : FPath := .tempFile (hash ++ ".webm")
    let fdir := "webm_" ++ hash
    if !env.downloadOk then
      { result := .error (), fs := (fs0.del tempWebm).del cachedGif,
        downloads := 1, execs := 0 }
    else
      let fs1 := (fs0.add tempWebm).add (.tempSub fdir)
      if !env.extractOk then
        { result := .error (), fs := (fs1.del tempWebm).del cachedGif,
          downloads := 1, execs := 1 }
      else
        let fs2 := writeFrames fs1 fdir 1 env.frameCount
        if !env.encodeOk then
          { result := .error (), fs := (fs2.del tempWebm).del cachedGif,
            downloads := 1, execs := 2 }
        else
          let fs3 := fs2.add cachedGif
          { result := .ok cachedGif.str, fs := (cleanupDir fs3 fdir).del tempWebm,
            downloads := 1, execs := 2 }

end WebmHandler

/-! ### TgsHandler (src/src/handler_tgs.js) -/

/-- Frame stride, handler_tgs.js line 113:
`Math.max(1, Math.round((animData.fr || 60) / targetFps))` with
`targetFps = 50`.  A missing `fr` field — and a zero one, `0` being falsy —
defaults to 60; `Math.round(fr / 50)` on a natural `fr` is
`(2 * fr + 50) / 100` rounded down. -/
def frOr60 : Option Nat → Nat
  | none => 60
  | some n => if n = 0 then 60 else n

/-- Stride of the TGS rasterization loop. -/
def tgsStep (fr : Option Nat) : Nat :=
  max 1 ((2 * frOr60 fr + 50) / 100)

/-- Frame indices visited by `for (let i = 0; i < totalFrames; i += step)`
(handler_tgs.js line 117), starting from `i`.  The extra `0 < step` conjunct
in the guard only serves termination; every call passes `tgsStep _`, which is
at least 1. -/
def frameIndices (total step i : Nat) : List Nat :=
  if _h : i < total ∧ 0 < step then i :: frameIndices total step (i + step)
  else []
termination_by total - i
decreasing_by omega

/-- External-effect outcomes for one TGS conversion: success of the axios
download, the `pako.ungzip` decompression, the `JSON.parse`, the
rasterization loop and the gifski encoding; the parsed document's `fr` field
and the loaded animation's `totalFrames`; and how many frames a failing
rasterization loop wrote before it threw. -/
structure TgsEnv where
  downloadOk : Bool
  gunzipOk : Bool
  jsonOk : Bool
  fr : Option Nat
  totalFrames : Nat
  renderOk : Bool
  renderFailAfter : Nat
  encodeOk : Bool
deriving DecidableEq, Repr

/-- Result of a `convertTgsToGif` call: the returned path (`none` on
failure — this handler never throws), the final filesystem, effect counters,
and whether the process-global DOM bindings (`global.window`,
`global.document`, `global.navigator`, `global.requestAnimationFrame`,
`global.cancelAnimationFrame`, installed and removed together) are set when
the call returns. -/
structure TgsOutcome where
  result : Option String
  fs : FS
  downloads : Nat
  execs : Nat
  globalsInstalled : Bool
deriving DecidableEq, Repr

namespace TgsHandler

/-- Source handler_tgs.js lines 26-28. -/
def generateHash (input : String) : String := md5Hex input

/-- Catch-block cleanup, handler_tgs.js lines 155-161: read the frames
directory (errors giving `[]`), unlink every file in it, rmdir it, and unlink
any partial cache artifact. -/
def failCleanup (fs : FS) (fdir : String) (cachedGif : FPath) : FS :=
  FS.del (cleanupDir fs fdir) cachedGif

/-- Source handler_tgs.js lines 30-164, `convertTgsToGif(tgsUrl, fileId =
null)`: key from `fileId || tgsUrl`; cached path on a hit; otherwise
download, gunzip and parse the Lottie JSON, install the process-global DOM
bindings (lines 62-67), load the animation, step frames with stride
`tgsStep`, writing `frame_<pad4 frameNum>.png` per visited index, encode with
gifski, unlink the frames, rmdir the frames directory, delete the globals
(lines 144-148) and return the cached path.  On any failure the catch block
runs `failCleanup` and returns `null`; the globals are not deleted there.
`g0` is whether the global bindings were already set when the call began. -/
def convertTgsToGif (env : TgsEnv) (g0 : Bool) (fs0 : FS) (tgsUrl : String)
    (fileId : Option String := none) : TgsOutcome :=
  let hash := generateHash (jsOr fileId tgsUrl)
  let cachedGif : FPath := .cacheFile (hash ++ ".gif")
  if fs0.has cachedGif then
    { result := some cachedGif.str, fs := fs0, downloads := 0, execs := 0,
      globalsInstalled := g0 }
  else
    let fdir := "tgs_" ++ hash
    if !env.downloadOk then
      { result := none, fs := failCleanup fs0 fdir cachedGif,
        downloads := 1, execs := 0, globalsInstalled := g0 }
    else if !(env.gunzipOk && env.jsonOk) then
      { result := none, fs := failCleanup fs0 fdir cachedGif,
        downloads := 1, execs := 0, globalsInstalled := g0 }
    else
      let step := tgsStep env.fr
      let idxs := frameIndices env.totalFrames step 0
      let fs1 := fs0.add (.tempSub fdir)
      if !env.renderOk then
        let fsp := writeFrames fs1 fdir 0 (min env.renderFailAfter idxs.length)
        { result := none, fs := failCleanup fsp fdir cachedGif,
          downloads := 1, execs := 0, globalsInstalled := true }
      else
        let fs2 := writeFrames fs1 fdir 0 idxs.length
        if !env.encodeOk then
          { result := none, fs := failCleanup fs2 fdir cachedGif,
            downloads := 1, execs := 1, globalsInstalled := true }
        else
          let fs3 := fs2.add cachedGif
          { result := some cachedGif.str, fs := cleanupDir fs3 fdir,
            downloads := 1, execs := 1, globalsInstalled := false }

end TgsHandler

/-! ### StaticHandler (src/src/handler_static.js) -/

/-- External-effect outcomes for one static-image conversion. -/
structure StaticEnv where
  downloadOk : Bool
  resizeOk : Bool
deriving DecidableEq, Repr

/-- Result of a `resizeStaticImage` call, also recording the external
commands the call executed. -/
structure StaticOutcome where
  result : Except Unit String
  fs : FS
  downloads : Nat
  execs : Nat
  cmds : List String
deriving DecidableEq, Repr

namespace StaticHandler

/-- Source handler_static.js lines 23-25. -/
def generateHash (url : String) : String := md5Hex url

/-- Extension sniff, handler_static.js lines 56-60: lowercase the URL,
default to `webp`, use `png` when the URL contains `.png`, else `jpg` when it
contains `.jpg` or `.jpeg`.  It names only the temporary download file. -/
def sniffExt (imageUrl : String) : String :=
  let urlLower := strToLower imageUrl
  if strIncludes urlLower ".png" then "png"
  else if strIncludes urlLower ".jpg" || strIncludes urlLower ".jpeg" then "jpg"
  else "webp"

/-- Resize command, handler_static.js line 71: fixed 256-pixel width with
`-1` preserving the aspect ratio, output written to the `.webp` cache
path. -/
def resizeCommand (tempImage cachedImage : String) : String :=
  "ffmpeg -i \"" ++ tempImage ++ "\" -vf \"scale=256:-1\" -y \"" ++ cachedImage ++ "\""

/-- Source handler_static.js lines 43-95, `resizeStaticImage(imageUrl)` (the
signature takes no stable identifier; the caller's extra argument is
ignored): key from the URL; cached `.webp` path on a hit; otherwise download
to `temp/<hash>_orig.<sniffed ext>`, run the ffmpeg resize writing the
`.webp` cache artifact, and unlink the temp download.  The catch block
(lines 88-94) unlinks the temp download and the partial cache artifact and
re-raises. -/
def resizeStaticImage (env : StaticEnv) (fs0 : FS) (imageUrl : String) :
    StaticOutcome :=
  let hash := generateHash imageUrl
  let cachedImage : FPath := .cacheFile (hash ++ ".webp")
  if fs0.has cachedImage then
    { result := .ok cachedImage.str, fs := fs0, downloads := 0, execs := 0,
      cmds := [] }
  else
    let ext := sniffExt imageUrl
    let tempImage : FPath := .tempFile (hash ++ "_orig." ++ ext)
    if !env.downloadOk then
      { result := .error (), fs := (fs0.del tempImage).del cachedImage,
        downloads := 1, execs := 0, cmds := [] }
    else
      let fs1 := fs0.add tempImage
      let cmd := resizeCommand tempImage.str cachedImage.str
      if !env.resizeOk then
        { result := .error (), fs := (fs1.del tempImage).del cachedImage,
          downloads := 1, execs := 1, cmds := [cmd] }
      else
        let fs2 := fs1.add cachedImage
        { result := .ok cachedImage.str, fs := fs2.del tempImage,
          downloads := 1, execs := 1, cmds := [cmd] }

end StaticHandler

/-- Key input at the request level, web-ui/web-picker.js and
src/unnamed/part_003 (lines 162-191 of part_003): the send endpoint
dispatches on the sticker URL and forwards the sticker's `fileId` to each
handler; `resizeStaticImage` declares no second parameter, so the forwarded
`fileId` is ignored there and the static cache key is derived from the URL
alone. -/
def requestHashInput (stickerUrl : String) (fileId : Option String) : String :=
  if strIncludes stickerUrl ".webm" then jsOr fileId stickerUrl
  else if strIncludes stickerUrl ".tgs" then jsOr fileId stickerUrl
  else stickerUrl

/-! ### Cache eviction sweeper -/

/-- One entry of the cache directory as the sweeper sees it: filename, size
in bytes, and last-modified time. -/
structure CacheEntry where
  name : String
  size : Nat
  mtime : Nat
deriving DecidableEq, Repr

/-- Total size of a list of cache entries. -/
def sumSize (l : List CacheEntry) : Nat := (l.map CacheEntry.size).sum

/-- Ascending last-modified-time order. -/
def byMtime (a b : CacheEntry) : Prop := a.mtime ≤ b.mtime

instance : DecidableRel byMtime := fun a b => Nat.decLe a.mtime b.mtime

instance : IsTotal CacheEntry byMtime := ⟨fun a b => Nat.le_total a.mtime b.mtime⟩

instance : IsTrans CacheEntry byMtime := ⟨fun _ _ _ h h' => Nat.le_trans h h'⟩

/-- Modelled from the spec: the deletion loop of the eviction sweep
(`src/cache_manager.js`, required by the bot entry point at
src/unnamed/part_000 line 14 but missing from the source snapshot).  Per
spec §4.5, walk the entries sorted oldest-first and delete, accumulating
freed space, until the running total is at or below the budget; returns
(remaining entries, deleted entries). -/
def evictLoop (B : Nat) : Nat → List CacheEntry → List CacheEntry × List CacheEntry
  | _, [] => ([], [])
  | total, e :: rest =>
    if total ≤ B then (e :: rest, [])
    else
      let p := evictLoop B (total - e.size) rest
      (p.1, e :: p.2)

/-- Modelled from the spec: one sweep cycle of `src/cache_manager.js`
(missing from the source snapshot).  Per spec §4.5: list all cache entries,
sum their sizes, and if the sum exceeds the budget `B`, sort by
last-modified time ascending and delete oldest-first until at or below the
budget; otherwise delete nothing. -/
def sweepCache (B : Nat) (entries : List CacheEntry) :
    List CacheEntry × List CacheEntry :=
  if sumSize entries ≤ B then (entries, [])
  else
    let sorted := entries.insertionSort byMtime
    evictLoop B (sumSize sorted) sorted

/-! ### General lemmas about the filesystem model -/

lemma has_iff_mem {fs : FS} {p : FPath} : fs.has p = true ↔ p ∈ fs :=
  List.elem_iff

lemma has_eq_false_iff {fs : FS} {p : FPath} : fs.has p = false ↔ p ∉ fs := by
  rw [← has_iff_mem]
  cases fs.has p <;> simp

lemma mem_del {fs : FS} {p q : FPath} : p ∈ FS.del fs q ↔ p ∈ fs ∧ p ≠ q := by
  simp [FS.del, List.mem_filter]

lemma mem_add {fs : FS} {p q : FPath} : p ∈ FS.add fs q ↔ p ∈ fs ∨ p = q := by
  unfold FS.add
  by_cases h : fs.contains q = true
  · rw [if_pos h]
    have hq : q ∈ fs := List.elem_iff.mp h
    constructor
    · exact Or.inl
    · rintro (hp | rfl)
      · exact hp
      · exact hq
  · rw [if_neg h]
    simp [List.mem_cons, or_comm]

lemma mem_unlinkAll {l : List FPath} {fs : FS} {p : FPath} :
    p ∈ unlinkAll fs l ↔ p ∈ fs ∧ p ∉ l := by
  induction l generalizing fs with
  | nil => simp [unlinkAll]
  | cons a t ih =>
      show p ∈ unlinkAll (FS.del fs a) t ↔ _
      rw [ih, mem_del]
      simp only [List.mem_cons]
      tauto

lemma mem_readdirDir {fs : FS} {d : String} {p : FPath} :
    p ∈ readdirDir fs d ↔ p ∈ fs ∧ inDir d p = true :=
  List.mem_filter

lemma readdir_unlinkAll (fs : FS) (d : String) :
    readdirDir (unlinkAll fs (readdirDir fs d)) d = [] := by
  rw [show readdirDir (unlinkAll fs (readdirDir fs d)) d =
      List.filter (inDir d) (unlinkAll fs (readdirDir fs d)) from rfl,
    List.filter_eq_nil_iff]
  intro a ha hin
  obtain ⟨hfs, hnot⟩ := mem_unlinkAll.mp ha
  exact hnot (mem_readdirDir.mpr ⟨hfs, hin⟩)

lemma mem_cleanupDir {fs : FS} {d : String} {p : FPath} :
    p ∈ cleanupDir fs d ↔ p ∈ fs ∧ inDir d p = false ∧ p ≠ FPath.tempSub d := by
  unfold cleanupDir rmdirCatch
  rw [if_pos (readdir_unlinkAll fs d), mem_del, mem_unlinkAll]
  constructor
  · rintro ⟨⟨hfs, hnr⟩, hne⟩
    refine ⟨hfs, ?_, hne⟩
    cases hd : inDir d p with
    | false => rfl
    | true => exact absurd (mem_readdirDir.mpr ⟨hfs, hd⟩) hnr
  · rintro ⟨hfs, hfalse, hne⟩
    refine ⟨⟨hfs, fun hr => ?_⟩, hne⟩
    rw [(mem_readdirDir.mp hr).2] at hfalse
    cases hfalse

lemma readdir_cleanupDir (fs : FS) (d : String) :
    readdirDir (cleanupDir fs d) d = [] := by
  rw [show readdirDir (cleanupDir fs d) d =
      List.filter (inDir d) (cleanupDir fs d) from rfl, List.filter_eq_nil_iff]
  intro a ha hin
  exact absurd hin (by rw [(mem_cleanupDir.mp ha).2.1]; exact fun h => by cases h)

lemma tempSub_not_mem_cleanupDir (fs : FS) (d : String) :
    FPath.tempSub d ∉ cleanupDir fs d := fun h =>
  absurd rfl (mem_cleanupDir.mp h).2.2

lemma mem_writeFrames {fs : FS} {d : String} {start n : Nat} {p : FPath} :
    p ∈ writeFrames fs d start n ↔
      p ∈ fs ∨ ∃ k < n, p = .tempSubFile d ("frame_" ++ pad4 (start + k) ++ ".png") := by
  unfold writeFrames
  induction n with
  | zero => simp
  | succ m ih =>
      rw [List.range_succ, List.foldl_append, List.foldl_cons, List.foldl_nil,
        mem_add, ih]
      constructor
      · rintro ((hfs | ⟨k, hk, rfl⟩) | rfl)
        · exact Or.inl hfs
        · exact Or.inr ⟨k, Nat.lt_succ_of_lt hk, rfl⟩
        · exact Or.inr ⟨m, Nat.lt_succ_self m, rfl⟩
      · rintro (hfs | ⟨k, hk, rfl⟩)
        · exact Or.inl (Or.inl hfs)
        · rcases Nat.lt_succ_iff_lt_or_eq.mp hk with hk' | rfl
          · exact Or.inl (Or.inr ⟨k, hk', rfl⟩)
          · exact Or.inr rfl

/-! ### Closed form of the rasterization loop -/

lemma frameIndices_eq_aux (t s : Nat) (hs : 0 < s) :
    ∀ n i, t - i ≤ n →
      frameIndices t s i = (List.range ((t - i + s - 1) / s)).map (fun j => i + j * s) := by
  intro n
  induction n with
  | zero =>
      intro i h
      rw [frameIndices, dif_neg (fun hc => absurd hc.1 (by omega))]
      rw [show t - i + s - 1 = s - 1 by omega, Nat.div_eq_of_lt (by omega)]
      simp
  | succ m ih =>
      intro i h
      by_cases hit : i < t
      · rw [frameIndices, dif_pos ⟨hit, hs⟩, ih (i + s) (by omega)]
        have hq : (t - i + s - 1) / s = (t - (i + s) + s - 1) / s + 1 := by
          by_cases hu : t - i ≤ s
          · have h0 : t - (i + s) = 0 := by omega
            have hr : (t - (i + s) + s - 1) / s = 0 := by
              rw [h0]; exact Nat.div_eq_of_lt (by omega)
            have hl : (t - i + s - 1) / s = 1 :=
              Nat.div_eq_of_lt_le (by omega) (by omega)
            omega
          · rw [show t - i + s - 1 = t - (i + s) + s - 1 + s by omega,
              Nat.add_div_right _ hs]
        rw [hq, List.range_succ_eq_map, List.map_cons, List.map_map]
        refine congrArg₂ _ (by omega) (List.map_congr_left fun j _ => ?_)
        simp [Function.comp, Nat.succ_mul]
        omega
      · rw [frameIndices, dif_neg (fun hc => absurd hc.1 hit)]
        rw [show t - i + s - 1 = s - 1 by omega, Nat.div_eq_of_lt (by omega)]
        simp

lemma frameIndices_zero (t s : Nat) (hs : 0 < s) :
    frameIndices t s 0 = (List.range ((t + s - 1) / s)).map (· * s) := by
  have h := frameIndices_eq_aux t s hs t 0 (by omega)
  simpa using h

/-! ### Lemmas about the eviction loop -/

lemma sumSize_cons (e : CacheEntry) (l : List CacheEntry) :
    sumSize (e :: l) = e.size + sumSize l := by
  simp [sumSize]

lemma evictLoop_spec (B : Nat) :
    ∀ (l : List CacheEntry) (total : Nat), total = sumSize l →
      (evictLoop B total l).2 ++ (evictLoop B total l).1 = l ∧
      sumSize (evictLoop B total l).1 ≤ B ∧
      ∀ j < (evictLoop B total l).2.length, B < sumSize (l.drop j) := by
  intro l
  induction l with
  | nil =>
      intro total _
      refine ⟨rfl, by simp [evictLoop, sumSize], ?_⟩
      intro j hj
      simp [evictLoop] at hj
  | cons e rest ih =>
      intro total h
      by_cases hb : total ≤ B
      · rw [show evictLoop B total (e :: rest) = (e :: rest, []) by
          rw [evictLoop, if_pos hb]]
        exact ⟨rfl, h ▸ hb, fun j hj => by simp at hj⟩
      · have hrec : evictLoop B total (e :: rest) =
            ((evictLoop B (total - e.size) rest).1,
              e :: (evictLoop B (total - e.size) rest).2) := by
          rw [evictLoop, if_neg hb]
        have hsz : total - e.size = sumSize rest := by
          rw [h, sumSize_cons]; omega
        obtain ⟨h1, h2, h3⟩ := ih (total - e.size) hsz
        rw [hrec]
        refine ⟨by simpa using h1, h2, ?_⟩
        intro j hj
        cases j with
        | zero => simpa [← h] using Nat.lt_of_not_le hb
        | succ j' =>
            simp only [List.length_cons, Nat.succ_lt_succ_iff] at hj
            simpa using h3 j' hj

/-! ### Path equations for the converters -/

lemma readdir_del_eq_nil {fs : FS} {d : String} {q : FPath}
    (h : readdirDir fs d = []) : readdirDir (FS.del fs q) d = [] := by
  rw [show readdirDir (FS.del fs q) d = List.filter (inDir d) (FS.del fs q) from rfl,
    List.filter_eq_nil_iff]
  intro a ha hin
  have ha' : a ∈ fs := (mem_del.mp ha).1
  have := List.filter_eq_nil_iff.mp h a ha'
  exact this hin

lemma readdir_failCleanup (fs : FS) (fdir : String) (cg : FPath) :
    readdirDir (TgsHandler.failCleanup fs fdir cg) fdir = [] :=
  readdir_del_eq_nil (readdir_cleanupDir fs fdir)

lemma cacheFile_not_mem_failCleanup (fs : FS) (fdir : String) (n : String) :
    FPath.cacheFile n ∉ TgsHandler.failCleanup fs fdir (.cacheFile n) := by
  intro h
  exact (mem_del.mp h).2 rfl

lemma tempSub_not_mem_failCleanup (fs : FS) (fdir : String) (cg : FPath) :
    FPath.tempSub fdir ∉ TgsHandler.failCleanup fs fdir cg := by
  intro h
  exact absurd rfl (mem_cleanupDir.mp (mem_del.mp h).1).2.2

lemma webm_hit_eq (env : WebmEnv) (fs : FS) (url : String) (fid : Option String)
    (h : fs.has (.cacheFile (WebmHandler.generateHash (jsOr fid url) ++ ".gif")) = true) :
    WebmHandler.convertWebmToGif env fs url fid =
      { result := .ok (FPath.cacheFile
          (WebmHandler.generateHash (jsOr fid url) ++ ".gif")).str,
        fs := fs, downloads := 0, execs := 0 } := by
  simp [WebmHandler.convertWebmToGif, h]

lemma webm_success_eq (env : WebmEnv) (fs0 : FS) (url : String) (fid : Option String)
    (hm : fs0.has (.cacheFile (WebmHandler.generateHash (jsOr fid url) ++ ".gif")) = false)
    (h1 : env.downloadOk = true) (h2 : env.extractOk = true)
    (h3 : env.encodeOk = true) :
    WebmHandler.convertWebmToGif env fs0 url fid =
      { result := .ok (FPath.cacheFile
          (WebmHandler.generateHash (jsOr fid url) ++ ".gif")).str,
        fs := (cleanupDir
            ((writeFrames
              ((fs0.add (.tempFile (WebmHandler.generateHash (jsOr fid url) ++ ".webm"))).add
                (.tempSub ("webm_" ++ WebmHandler.generateHash (jsOr fid url))))
              ("webm_" ++ WebmHandler.generateHash (jsOr fid url)) 1 env.frameCount).add
              (.cacheFile (WebmHandler.generateHash (jsOr fid url) ++ ".gif")))
            ("webm_" ++ WebmHandler.generateHash (jsOr fid url))).del
          (.tempFile (WebmHandler.generateHash (jsOr fid url) ++ ".webm")),
        downloads := 1, execs := 2 } := by
  simp [WebmHandler.convertWebmToGif, hm, h1, h2, h3]

lemma tgs_hit_eq (env : TgsEnv) (g0 : Bool) (fs : FS) (url : String)
    (fid : Option String)
    (h : fs.has (.cacheFile (TgsHandler.generateHash (jsOr fid url) ++ ".gif")) = true) :
    TgsHandler.convertTgsToGif env g0 fs url fid =
      { result := some (FPath.cacheFile
          (TgsHandler.generateHash (jsOr fid url) ++ ".gif")).str,
        fs := fs, downloads := 0, execs := 0, globalsInstalled := g0 } := by
  simp [TgsHandler.convertTgsToGif, h]

lemma tgs_success_eq (env : TgsEnv) (g0 : Bool) (fs0 : FS) (url : String)
    (fid : Option String)
    (hm : fs0.has (.cacheFile (TgsHandler.generateHash (jsOr fid url) ++ ".gif")) = false)
    (h1 : env.downloadOk = true) (h2 : env.gunzipOk = true) (h3 : env.jsonOk = true)
    (h4 : env.renderOk = true) (h5 : env.encodeOk = true) :
    TgsHandler.convertTgsToGif env g0 fs0 url fid =
      { result := some (FPath.cacheFile
          (TgsHandler.generateHash (jsOr fid url) ++ ".gif")).str,
        fs := cleanupDir
          ((writeFrames (fs0.add (.tempSub ("tgs_" ++ TgsHandler.generateHash (jsOr fid url))))
              ("tgs_" ++ TgsHandler.generateHash (jsOr fid url)) 0
              (frameIndices env.totalFrames (tgsStep env.fr) 0).length).add
            (.cacheFile (TgsHandler.generateHash (jsOr fid url) ++ ".gif")))
          ("tgs_" ++ TgsHandler.generateHash (jsOr fid url)),
        downloads := 1, execs := 1, globalsInstalled := false } := by
  simp [TgsHandler.convertTgsToGif, hm, h1, h2, h3, h4, h5]

lemma static_hit_eq (env : StaticEnv) (fs : FS) (url : String)
    (h : fs.has (.cacheFile (StaticHandler.generateHash url ++ ".webp")) = true) :
    StaticHandler.resizeStaticImage env fs url =
      { result := .ok (FPath.cacheFile (StaticHandler.generateHash url ++ ".webp")).str,
        fs := fs, downloads := 0, execs := 0, cmds := [] } := by
  simp [StaticHandler.resizeStaticImage, h]

lemma static_success_eq (env : StaticEnv) (fs0 : FS) (url : String)
    (hm : fs0.has (.cacheFile (StaticHandler.generateHash url ++ ".webp")) = false)
    (h1 : env.downloadOk = true) (h2 : env.resizeOk = true) :
    StaticHandler.resizeStaticImage env fs0 url =
      { result := .ok (FPath.cacheFile (StaticHandler.generateHash url ++ ".webp")).str,
        fs := ((fs0.add (.tempFile (StaticHandler.generateHash url ++ "_orig." ++
            StaticHandler.sniffExt url))).add (.cacheFile (StaticHandler.generateHash url ++ ".webp"))).del
          (.tempFile (StaticHandler.generateHash url ++ "_orig." ++ StaticHandler.sniffExt url)),
        downloads := 1, execs := 1,
        cmds := [StaticHandler.resizeCommand
          (FPath.tempFile (StaticHandler.generateHash url ++ "_orig." ++ StaticHandler.sniffExt url)).str
          (FPath.cacheFile (StaticHandler.generateHash url ++ ".webp")).str] } := by
  simp [StaticHandler.resizeStaticImage, hm, h1, h2]

/-! ### First-call success lemmas -/

lemma webm_first_call (env : WebmEnv) (fs : FS) (url : String) (fid : Option String)
    (h1 : env.downloadOk = true) (h2 : env.extractOk = true)
    (h3 : env.encodeOk = true) :
    (WebmHandler.convertWebmToGif env fs url fid).result =
      .ok (FPath.cacheFile (WebmHandler.generateHash (jsOr fid url) ++ ".gif")).str ∧
    (WebmHandler.convertWebmToGif env fs url fid).fs.has
      (.cacheFile (WebmHandler.generateHash (jsOr fid url) ++ ".gif")) = true := by
  by_cases hm : fs.has (.cacheFile (WebmHandler.generateHash (jsOr fid url) ++ ".gif")) = true
  · rw [webm_hit_eq env fs url fid hm]
    exact ⟨rfl, hm⟩
  · have hm' : fs.has (.cacheFile (WebmHandler.generateHash (jsOr fid url) ++ ".gif")) = false := by
      simpa using hm
    rw [webm_success_eq env fs url fid hm' h1 h2 h3]
    refine ⟨rfl, ?_⟩
    rw [has_iff_mem, mem_del]
    exact ⟨mem_cleanupDir.mpr ⟨mem_add.mpr (Or.inr rfl), rfl, fun h => nomatch h⟩,
      fun h => nomatch h⟩

lemma tgs_first_call (env : TgsEnv) (g0 : Bool) (fs : FS) (url : String)
    (fid : Option String)
    (h1 : env.downloadOk = true) (h2 : env.gunzipOk = true) (h3 : env.jsonOk = true)
    (h4 : env.renderOk = true) (h5 : env.encodeOk = true) :
    (TgsHandler.convertTgsToGif env g0 fs url fid).result =
      some (FPath.cacheFile (TgsHandler.generateHash (jsOr fid url) ++ ".gif")).str ∧
    (TgsHandler.convertTgsToGif env g0 fs url fid).fs.has
      (.cacheFile (TgsHandler.generateHash (jsOr fid url) ++ ".gif")) = true := by
  by_cases hm : fs.has (.cacheFile (TgsHandler.generateHash (jsOr fid url) ++ ".gif")) = true
  · rw [tgs_hit_eq env g0 fs url fid hm]
    exact ⟨rfl, hm⟩
  · have hm' : fs.has (.cacheFile (TgsHandler.generateHash (jsOr fid url) ++ ".gif")) = false := by
      simpa using hm
    rw [tgs_success_eq env g0 fs url fid hm' h1 h2 h3 h4 h5]
    refine ⟨rfl, ?_⟩
    rw [has_iff_mem]
    exact mem_cleanupDir.mpr ⟨mem_add.mpr (Or.inr rfl), rfl, fun h => nomatch h⟩

lemma static_first_call (env : StaticEnv) (fs : FS) (url : String)
    (h1 : env.downloadOk = true) (h2 : env.resizeOk = true) :
    (StaticHandler.resizeStaticImage env fs url).result =
      .ok (FPath.cacheFile (StaticHandler.generateHash url ++ ".webp")).str ∧
    (StaticHandler.resizeStaticImage env fs url).fs.has
      (.cacheFile (StaticHandler.generateHash url ++ ".webp")) = true := by
  by_cases hm : fs.has (.cacheFile (StaticHandler.generateHash url ++ ".webp")) = true
  · rw [static_hit_eq env fs url hm]
    exact ⟨rfl, hm⟩
  · have hm' : fs.has (.cacheFile (StaticHandler.generateHash url ++ ".webp")) = false := by
      simpa using hm
    rw [static_success_eq env fs url hm' h1 h2]
    refine ⟨rfl, ?_⟩
    rw [has_iff_mem, mem_del]
    exact ⟨mem_add.mpr (Or.inr rfl), fun h => nomatch h⟩

/-! ### Claim theorems -/

/-- C1: for a fixed stableId, calling a converter twice returns the same
cache path both times; after a successful first call the cache-existence
probe succeeds, so the second call returns the cached path having performed
zero downloads and zero external-process invocations, for each of the WEBM,
TGS and static converters. -/
theorem cache_idempotence
    (we we' : WebmEnv) (te te' : TgsEnv) (se se' : StaticEnv)
    (g0 g1 : Bool) (fs : FS) (url : String) (fid : Option String)
    (hw1 : we.downloadOk = true) (hw2 : we.extractOk = true)
    (hw3 : we.encodeOk = true)
    (ht1 : te.downloadOk = true) (ht2 : te.gunzipOk = true)
    (ht3 : te.jsonOk = true) (ht4 : te.renderOk = true) (ht5 : te.encodeOk = true)
    (hs1 : se.downloadOk = true) (hs2 : se.resizeOk = true) :
    (∃ p, (WebmHandler.convertWebmToGif we fs url fid).result = .ok p ∧
      WebmHandler.convertWebmToGif we'
          (WebmHandler.convertWebmToGif we fs url fid).fs url fid =
        { result := .ok p,
          fs := (WebmHandler.convertWebmToGif we fs url fid).fs,
          downloads := 0, execs := 0 }) ∧
    (∃ p, (TgsHandler.convertTgsToGif te g0 fs url fid).result = some p ∧
      TgsHandler.convertTgsToGif te' g1
          (TgsHandler.convertTgsToGif te g0 fs url fid).fs url fid =
        { result := some p,
          fs := (TgsHandler.convertTgsToGif te g0 fs url fid).fs,
          downloads := 0, execs := 0, globalsInstalled := g1 }) ∧
    (∃ p, (StaticHandler.resizeStaticImage se fs url).result = .ok p ∧
      StaticHandler.resizeStaticImage se'
          (StaticHandler.resizeStaticImage se fs url).fs url =
        { result := .ok p,
          fs := (StaticHandler.resizeStaticImage se fs url).fs,
          downloads := 0, execs := 0, cmds := [] }) := by
  obtain ⟨hwr, hwh⟩ := webm_first_call we fs url fid hw1 hw2 hw3
  obtain ⟨htr, hth⟩ := tgs_first_call te g0 fs url fid ht1 ht2 ht3 ht4 ht5
  obtain ⟨hsr, hsh⟩ := static_first_call se fs url hs1 hs2
  refine ⟨⟨_, hwr, ?_⟩, ⟨_, htr, ?_⟩, ⟨_, hsr, ?_⟩⟩
  · exact webm_hit_eq we' _ url fid hwh
  · exact tgs_hit_eq te' g1 _ url fid hth
  · exact static_hit_eq se' _ url hsh

/-- Witness for C1 at the concrete inputs `url = "u"`, `fid = some "id"`,
empty initial filesystem, all first-call effects succeeding and all
second-call effects failing. -/
theorem cache_idempotence_witness :
    ((⟨true, true, 1, true⟩ : WebmEnv).downloadOk = true ∧
     (⟨true, true, 1, true⟩ : WebmEnv).extractOk = true ∧
     (⟨true, true, 1, true⟩ : WebmEnv).encodeOk = true ∧
     (⟨true, true, true, some 60, 2, true, 0, true⟩ : TgsEnv).downloadOk = true ∧
     (⟨true, true, true, some 60, 2, true, 0, true⟩ : TgsEnv).gunzipOk = true ∧
     (⟨true, true, true, some 60, 2, true, 0, true⟩ : TgsEnv).jsonOk = true ∧
     (⟨true, true, true, some 60, 2, true, 0, true⟩ : TgsEnv).renderOk = true ∧
     (⟨true, true, true, some 60, 2, true, 0, true⟩ : TgsEnv).encodeOk = true ∧
     (⟨true, true⟩ : StaticEnv).downloadOk = true ∧
     (⟨true, true⟩ : StaticEnv).resizeOk = true) ∧
    ((∃ p, (WebmHandler.convertWebmToGif ⟨true, true, 1, true⟩ [] "u" (some "id")).result = .ok p ∧
      WebmHandler.convertWebmToGif ⟨false, false, 0, false⟩
          (WebmHandler.convertWebmToGif ⟨true, true, 1, true⟩ [] "u" (some "id")).fs "u" (some "id") =
        { result := .ok p,
          fs := (WebmHandler.convertWebmToGif ⟨true, true, 1, true⟩ [] "u" (some "id")).fs,
          downloads := 0, execs := 0 }) ∧
    (∃ p, (TgsHandler.convertTgsToGif ⟨true, true, true, some 60, 2, true, 0, true⟩ false [] "u" (some "id")).result = some p ∧
      TgsHandler.convertTgsToGif ⟨false, false, false, none, 0, false, 0, false⟩ true
          (TgsHandler.convertTgsToGif ⟨true, true, true, some 60, 2, true, 0, true⟩ false [] "u" (some "id")).fs "u" (some "id") =
        { result := some p,
          fs := (TgsHandler.convertTgsToGif ⟨true, true, true, some 60, 2, true, 0, true⟩ false [] "u" (some "id")).fs,
          downloads := 0, execs := 0, globalsInstalled := true }) ∧
    (∃ p, (StaticHandler.resizeStaticImage ⟨true, true⟩ [] "u").result = .ok p ∧
      StaticHandler.resizeStaticImage ⟨false, false⟩
          (StaticHandler.resizeStaticImage ⟨true, true⟩ [] "u").fs "u" =
        { result := .ok p,
          fs := (StaticHandler.resizeStaticImage ⟨true, true⟩ [] "u").fs,
          downloads := 0, execs := 0, cmds := [] })) :=
  ⟨⟨rfl, rfl, rfl, rfl, rfl, rfl, rfl, rfl, rfl, rfl⟩,
    cache_idempotence ⟨true, true, 1, true⟩ ⟨false, false, 0, false⟩
      ⟨true, true, true, some 60, 2, true, 0, true⟩
      ⟨false, false, false, none, 0, false, 0, false⟩
      ⟨true, true⟩ ⟨false, false⟩ false true [] "u" (some "id")
      rfl rfl rfl rfl rfl rfl rfl rfl rfl rfl⟩


/-! ### Result-shape and failure-path lemmas -/

lemma has_del_chain_inner (X : FS) (p q : FPath) :
    ((X.del p).del q).has p = false := by
  rw [has_eq_false_iff]
  intro h
  exact (mem_del.mp (mem_del.mp h).1).2 rfl

lemma has_del_chain_outer (X : FS) (p q : FPath) :
    ((X.del p).del q).has q = false := by
  rw [has_eq_false_iff]
  intro h
  exact (mem_del.mp h).2 rfl

lemma webm_result_cases (env : WebmEnv) (fs : FS) (url : String)
    (fid : Option String) :
    (WebmHandler.convertWebmToGif env fs url fid).result = .error () ∨
    (WebmHandler.convertWebmToGif env fs url fid).result =
      .ok (FPath.cacheFile (md5Hex (jsOr fid url) ++ ".gif")).str := by
  simp only [WebmHandler.convertWebmToGif]
  split
  · exact Or.inr rfl
  · split
    · exact Or.inl rfl
    · split
      · exact Or.inl rfl
      · split
        · exact Or.inl rfl
        · exact Or.inr rfl

lemma tgs_result_cases (env : TgsEnv) (g0 : Bool) (fs : FS) (url : String)
    (fid : Option String) :
    (TgsHandler.convertTgsToGif env g0 fs url fid).result = none ∨
    (TgsHandler.convertTgsToGif env g0 fs url fid).result =
      some (FPath.cacheFile (md5Hex (jsOr fid url) ++ ".gif")).str := by
  simp only [TgsHandler.convertTgsToGif]
  split
  · exact Or.inr rfl
  · split
    · exact Or.inl rfl
    · split
      · exact Or.inl rfl
      · split
        · exact Or.inl rfl
        · split
          · exact Or.inl rfl
          · exact Or.inr rfl

lemma static_result_cases (env : StaticEnv) (fs : FS) (url : String) :
    (StaticHandler.resizeStaticImage env fs url).result = .error () ∨
    (StaticHandler.resizeStaticImage env fs url).result =
      .ok (FPath.cacheFile (md5Hex url ++ ".webp")).str := by
  simp only [StaticHandler.resizeStaticImage]
  split
  · exact Or.inr rfl
  · split
    · exact Or.inl rfl
    · split
      · exact Or.inl rfl
      · exact Or.inr rfl

/-- C2 counterexample: a conversion request for a static sticker can supply a
stableId (the picker endpoint forwards `fileId` to `resizeStaticImage`), yet
the key input is the URL, not the supplied stableId; and the WEBM converter
given the supplied stableId `""` hashes the URL instead (JS falsiness of
`fileId || webmUrl`). -/
theorem key_derivation_counterexample :
    requestHashInput "https://x/sticker.png" (some "stable") = "https://x/sticker.png" ∧
    "https://x/sticker.png" ≠ "stable" ∧
    (WebmHandler.convertWebmToGif ⟨true, true, 1, true⟩ [] "u" (some "")).result =
      .ok ("gif-cache/" ++ md5Hex "u" ++ ".gif") ∧
    md5Hex "u" ≠ md5Hex "" := by
  refine ⟨by decide, by decide, by decide, by decide⟩

/-- C2 amended: the WEBM and TGS converters hash a supplied non-empty
stableId, and hash the sourceUrl when the stableId is absent or empty (JS
falsiness); every path either fails or returns the artifact named by that
hash.  The static converter takes no stableId — a caller-supplied one is
ignored — and always hashes the sourceUrl. -/
theorem key_derivation_amended :
    (∀ (s url : String), s ≠ "" → jsOr (some s) url = s) ∧
    (∀ url : String, jsOr none url = url) ∧
    (∀ url : String, jsOr (some "") url = url) ∧
    (∀ (env : WebmEnv) (fs : FS) (url : String) (fid : Option String),
      (WebmHandler.convertWebmToGif env fs url fid).result = .error () ∨
      (WebmHandler.convertWebmToGif env fs url fid).result =
        .ok (FPath.cacheFile (md5Hex (jsOr fid url) ++ ".gif")).str) ∧
    (∀ (env : TgsEnv) (g0 : Bool) (fs : FS) (url : String) (fid : Option String),
      (TgsHandler.convertTgsToGif env g0 fs url fid).result = none ∨
      (TgsHandler.convertTgsToGif env g0 fs url fid).result =
        some (FPath.cacheFile (md5Hex (jsOr fid url) ++ ".gif")).str) ∧
    (∀ (env : StaticEnv) (fs : FS) (url : String),
      (StaticHandler.resizeStaticImage env fs url).result = .error () ∨
      (StaticHandler.resizeStaticImage env fs url).result =
        .ok (FPath.cacheFile (md5Hex url ++ ".webp")).str) ∧
    (∀ (url : String) (fid : Option String),
      strIncludes url ".webm" = false → strIncludes url ".tgs" = false →
      requestHashInput url fid = url) := by
  refine ⟨fun s url hs => ?_, fun url => rfl, fun url => rfl,
    webm_result_cases, tgs_result_cases, static_result_cases,
    fun url fid h1 h2 => ?_⟩
  · simp [jsOr, hs]
  · simp [requestHashInput, h1, h2]

/-- Witness for C2 amended at stableId `"id"` and a plain raster URL. -/
theorem key_derivation_amended_witness :
    ("id" ≠ "" ∧ jsOr (some "id") "u" = "id") ∧
    (strIncludes "https://x/a.webp" ".webm" = false ∧
     strIncludes "https://x/a.webp" ".tgs" = false ∧
     requestHashInput "https://x/a.webp" (some "id") = "https://x/a.webp") := by
  obtain ⟨h1, _, _, _, _, _, h7⟩ := key_derivation_amended
  exact ⟨⟨by decide, h1 "id" "u" (by decide)⟩,
    by decide, by decide, h7 "https://x/a.webp" (some "id") (by decide) (by decide)⟩


lemma webm_fail_download_eq (env : WebmEnv) (fs0 : FS) (url : String)
    (fid : Option String)
    (hm : fs0.has (.cacheFile (WebmHandler.generateHash (jsOr fid url) ++ ".gif")) = false)
    (hd : env.downloadOk = false) :
    WebmHandler.convertWebmToGif env fs0 url fid =
      { result := .error (),
        fs := (fs0.del (.tempFile (WebmHandler.generateHash (jsOr fid url) ++ ".webm"))).del
          (.cacheFile (WebmHandler.generateHash (jsOr fid url) ++ ".gif")),
        downloads := 1, execs := 0 } := by
  simp [WebmHandler.convertWebmToGif, hm, hd]

lemma webm_fail_extract_eq (env : WebmEnv) (fs0 : FS) (url : String)
    (fid : Option String)
    (hm : fs0.has (.cacheFile (WebmHandler.generateHash (jsOr fid url) ++ ".gif")) = false)
    (hd : env.downloadOk = true) (he : env.extractOk = false) :
    WebmHandler.convertWebmToGif env fs0 url fid =
      { result := .error (),
        fs := (((fs0.add (.tempFile (WebmHandler.generateHash (jsOr fid url) ++ ".webm"))).add
            (.tempSub ("webm_" ++ WebmHandler.generateHash (jsOr fid url)))).del
            (.tempFile (WebmHandler.generateHash (jsOr fid url) ++ ".webm"))).del
          (.cacheFile (WebmHandler.generateHash (jsOr fid url) ++ ".gif")),
        downloads := 1, execs := 1 } := by
  simp [WebmHandler.convertWebmToGif, hm, hd, he]

lemma webm_fail_encode_eq (env : WebmEnv) (fs0 : FS) (url : String)
    (fid : Option String)
    (hm : fs0.has (.cacheFile (WebmHandler.generateHash (jsOr fid url) ++ ".gif")) = false)
    (hd : env.downloadOk = true) (he : env.extractOk = true)
    (hc : env.encodeOk = false) :
    WebmHandler.convertWebmToGif env fs0 url fid =
      { result := .error (),
        fs := ((writeFrames
            ((fs0.add (.tempFile (WebmHandler.generateHash (jsOr fid url) ++ ".webm"))).add
              (.tempSub ("webm_" ++ WebmHandler.generateHash (jsOr fid url))))
            ("webm_" ++ WebmHandler.generateHash (jsOr fid url)) 1 env.frameCount).del
            (.tempFile (WebmHandler.generateHash (jsOr fid url) ++ ".webm"))).del
          (.cacheFile (WebmHandler.generateHash (jsOr fid url) ++ ".gif")),
        downloads := 1, execs := 2 } := by
  simp [WebmHandler.convertWebmToGif, hm, hd, he, hc]

/-- C4 counterexample: with download and extraction succeeding (two frames
extracted) and the gifski encoding failing, `convertWebmToGif` re-raises the
error but the extracted frame files are still present in the workspace when
the call returns — the catch block only unlinks the temp download and the
partial cache file. -/
theorem webm_cleanup_counterexample :
    (WebmHandler.convertWebmToGif ⟨true, true, 2, false⟩ [] "u" (some "abc123")).result =
      .error () ∧
    (WebmHandler.convertWebmToGif ⟨true, true, 2, false⟩ [] "u" (some "abc123")).fs.has
      (.tempSubFile ("webm_" ++ md5Hex "abc123") "frame_0001.png") = true ∧
    (WebmHandler.convertWebmToGif ⟨true, true, 2, false⟩ [] "u" (some "abc123")).fs.has
      (.tempSub ("webm_" ++ md5Hex "abc123")) = true := by
  refine ⟨by decide, by decide, by decide⟩

/-- C4 amended: on every failure (download, frame extraction, or GIF
encoding) `convertWebmToGif` removes the downloaded source file and any
partially written cache file for the key before re-raising the error, so the
cache holds no entry for that key; the extracted-frames directory and its
frames are not removed on the failure path (they are cleaned up only on
success). -/
theorem webm_failure_cleanup_amended (env : WebmEnv) (fs0 : FS) (url : String)
    (fid : Option String)
    (hm : fs0.has (.cacheFile (WebmHandler.generateHash (jsOr fid url) ++ ".gif")) = false)
    (hf : env.downloadOk = false ∨ env.extractOk = false ∨ env.encodeOk = false) :
    (WebmHandler.convertWebmToGif env fs0 url fid).result = .error () ∧
    (WebmHandler.convertWebmToGif env fs0 url fid).fs.has
      (.tempFile (WebmHandler.generateHash (jsOr fid url) ++ ".webm")) = false ∧
    (WebmHandler.convertWebmToGif env fs0 url fid).fs.has
      (.cacheFile (WebmHandler.generateHash (jsOr fid url) ++ ".gif")) = false := by
  by_cases hd : env.downloadOk = true
  · by_cases he : env.extractOk = true
    · have hc : env.encodeOk = false := by
        rcases hf with h | h | h
        · rw [h] at hd; cases hd
        · rw [h] at he; cases he
        · exact h
      rw [webm_fail_encode_eq env fs0 url fid hm hd he hc]
      exact ⟨rfl, has_del_chain_inner _ _ _, has_del_chain_outer _ _ _⟩
    · have he' : env.extractOk = false := by simpa using he
      rw [webm_fail_extract_eq env fs0 url fid hm hd he']
      exact ⟨rfl, has_del_chain_inner _ _ _, has_del_chain_outer _ _ _⟩
  · have hd' : env.downloadOk = false := by simpa using hd
    rw [webm_fail_download_eq env fs0 url fid hm hd']
    exact ⟨rfl, has_del_chain_inner _ _ _, has_del_chain_outer _ _ _⟩

/-- Witness for C4 amended: empty initial cache, encoding failure. -/
theorem webm_failure_cleanup_amended_witness :
    (FS.has [] (.cacheFile (WebmHandler.generateHash (jsOr (some "abc123") "u") ++ ".gif")) = false ∧
     ((⟨true, true, 2, false⟩ : WebmEnv).downloadOk = false ∨
      (⟨true, true, 2, false⟩ : WebmEnv).extractOk = false ∨
      (⟨true, true, 2, false⟩ : WebmEnv).encodeOk = false)) ∧
    ((WebmHandler.convertWebmToGif ⟨true, true, 2, false⟩ [] "u" (some "abc123")).result = .error () ∧
     (WebmHandler.convertWebmToGif ⟨true, true, 2, false⟩ [] "u" (some "abc123")).fs.has
       (.tempFile (WebmHandler.generateHash (jsOr (some "abc123") "u") ++ ".webm")) = false ∧
     (WebmHandler.convertWebmToGif ⟨true, true, 2, false⟩ [] "u" (some "abc123")).fs.has
       (.cacheFile (WebmHandler.generateHash (jsOr (some "abc123") "u") ++ ".gif")) = false) :=
  ⟨⟨by decide, Or.inr (Or.inr rfl)⟩,
    webm_failure_cleanup_amended ⟨true, true, 2, false⟩ [] "u" (some "abc123")
      (by decide) (Or.inr (Or.inr rfl))⟩


lemma tgs_fail_download_eq (env : TgsEnv) (g0 : Bool) (fs0 : FS) (url : String)
    (fid : Option String)
    (hm : fs0.has (.cacheFile (TgsHandler.generateHash (jsOr fid url) ++ ".gif")) = false)
    (hd : env.downloadOk = false) :
    TgsHandler.convertTgsToGif env g0 fs0 url fid =
      { result := none,
        fs := TgsHandler.failCleanup fs0 ("tgs_" ++ TgsHandler.generateHash (jsOr fid url))
          (.cacheFile (TgsHandler.generateHash (jsOr fid url) ++ ".gif")),
        downloads := 1, execs := 0, globalsInstalled := g0 } := by
  simp [TgsHandler.convertTgsToGif, hm, hd]

lemma tgs_fail_parse_eq (env : TgsEnv) (g0 : Bool) (fs0 : FS) (url : String)
    (fid : Option String)
    (hm : fs0.has (.cacheFile (TgsHandler.generateHash (jsOr fid url) ++ ".gif")) = false)
    (hd : env.downloadOk = true) (hgj : (env.gunzipOk && env.jsonOk) = false) :
    TgsHandler.convertTgsToGif env g0 fs0 url fid =
      { result := none,
        fs := TgsHandler.failCleanup fs0 ("tgs_" ++ TgsHandler.generateHash (jsOr fid url))
          (.cacheFile (TgsHandler.generateHash (jsOr fid url) ++ ".gif")),
        downloads := 1, execs := 0, globalsInstalled := g0 } := by
  simp [TgsHandler.convertTgsToGif, hm, hd, hgj]

lemma tgs_fail_render_eq (env : TgsEnv) (g0 : Bool) (fs0 : FS) (url : String)
    (fid : Option String)
    (hm : fs0.has (.cacheFile (TgsHandler.generateHash (jsOr fid url) ++ ".gif")) = false)
    (hd : env.downloadOk = true) (hg : env.gunzipOk = true) (hj : env.jsonOk = true)
    (hr : env.renderOk = false) :
    TgsHandler.convertTgsToGif env g0 fs0 url fid =
      { result := none,
        fs := TgsHandler.failCleanup
          (writeFrames (fs0.add (.tempSub ("tgs_" ++ TgsHandler.generateHash (jsOr fid url))))
            ("tgs_" ++ TgsHandler.generateHash (jsOr fid url)) 0
            (min env.renderFailAfter
              (frameIndices env.totalFrames (tgsStep env.fr) 0).length))
          ("tgs_" ++ TgsHandler.generateHash (jsOr fid url))
          (.cacheFile (TgsHandler.generateHash (jsOr fid url) ++ ".gif")),
        downloads := 1, execs := 0, globalsInstalled := true } := by
  simp [TgsHandler.convertTgsToGif, hm, hd, hg, hj, hr]

lemma tgs_fail_encode_eq (env : TgsEnv) (g0 : Bool) (fs0 : FS) (url : String)
    (fid : Option String)
    (hm : fs0.has (.cacheFile (TgsHandler.generateHash (jsOr fid url) ++ ".gif")) = false)
    (hd : env.downloadOk = true) (hg : env.gunzipOk = true) (hj : env.jsonOk = true)
    (hr : env.renderOk = true) (hc : env.encodeOk = false) :
    TgsHandler.convertTgsToGif env g0 fs0 url fid =
      { result := none,
        fs := TgsHandler.failCleanup
          (writeFrames (fs0.add (.tempSub ("tgs_" ++ TgsHandler.generateHash (jsOr fid url))))
            ("tgs_" ++ TgsHandler.generateHash (jsOr fid url)) 0
            (frameIndices env.totalFrames (tgsStep env.fr) 0).length)
          ("tgs_" ++ TgsHandler.generateHash (jsOr fid url))
          (.cacheFile (TgsHandler.generateHash (jsOr fid url) ++ ".gif")),
        downloads := 1, execs := 1, globalsInstalled := true } := by
  simp [TgsHandler.convertTgsToGif, hm, hd, hg, hj, hr, hc]

/-- C3: on every TGS conversion failure (download error, non-gzip or
non-JSON payload, rasterization error, or encoder failure) `convertTgsToGif`
returns `none` rather than propagating an error, and the final filesystem
holds no frames under the workspace frames directory, not the frames
directory itself, and no cache artifact for the key. -/
theorem tgs_failure_null_cleanup (env : TgsEnv) (g0 : Bool) (fs0 : FS)
    (url : String) (fid : Option String)
    (hm : fs0.has (.cacheFile (TgsHandler.generateHash (jsOr fid url) ++ ".gif")) = false)
    (hf : env.downloadOk = false ∨ (env.gunzipOk && env.jsonOk) = false ∨
      env.renderOk = false ∨ env.encodeOk = false) :
    (TgsHandler.convertTgsToGif env g0 fs0 url fid).result = none ∧
    readdirDir (TgsHandler.convertTgsToGif env g0 fs0 url fid).fs
      ("tgs_" ++ TgsHandler.generateHash (jsOr fid url)) = [] ∧
    (TgsHandler.convertTgsToGif env g0 fs0 url fid).fs.has
      (.tempSub ("tgs_" ++ TgsHandler.generateHash (jsOr fid url))) = false ∧
    (TgsHandler.convertTgsToGif env g0 fs0 url fid).fs.has
      (.cacheFile (TgsHandler.generateHash (jsOr fid url) ++ ".gif")) = false := by
  have post : ∀ V : FS,
      readdirDir (TgsHandler.failCleanup V
        ("tgs_" ++ TgsHandler.generateHash (jsOr fid url))
        (.cacheFile (TgsHandler.generateHash (jsOr fid url) ++ ".gif")))
        ("tgs_" ++ TgsHandler.generateHash (jsOr fid url)) = [] ∧
      FS.has (TgsHandler.failCleanup V
        ("tgs_" ++ TgsHandler.generateHash (jsOr fid url))
        (.cacheFile (TgsHandler.generateHash (jsOr fid url) ++ ".gif")))
        (.tempSub ("tgs_" ++ TgsHandler.generateHash (jsOr fid url))) = false ∧
      FS.has (TgsHandler.failCleanup V
        ("tgs_" ++ TgsHandler.generateHash (jsOr fid url))
        (.cacheFile (TgsHandler.generateHash (jsOr fid url) ++ ".gif")))
        (.cacheFile (TgsHandler.generateHash (jsOr fid url) ++ ".gif")) = false := by
    intro V
    refine ⟨readdir_failCleanup V _ _, ?_, ?_⟩
    · rw [has_eq_false_iff]
      exact tempSub_not_mem_failCleanup V _ _
    · rw [has_eq_false_iff]
      exact cacheFile_not_mem_failCleanup V _ _
  by_cases hd : env.downloadOk = true
  · by_cases hgj : (env.gunzipOk && env.jsonOk) = true
    · have hg : env.gunzipOk = true := (Bool.and_eq_true _ _ |>.mp hgj).1
      have hj : env.jsonOk = true := (Bool.and_eq_true _ _ |>.mp hgj).2
      by_cases hr : env.renderOk = true
      · have hc : env.encodeOk = false := by
          rcases hf with h | h | h | h
          · rw [h] at hd; cases hd
          · rw [h] at hgj; cases hgj
          · rw [h] at hr; cases hr
          · exact h
        rw [tgs_fail_encode_eq env g0 fs0 url fid hm hd hg hj hr hc]
        exact ⟨rfl, (post _).1, (post _).2.1, (post _).2.2⟩
      · have hr' : env.renderOk = false := by simpa using hr
        rw [tgs_fail_render_eq env g0 fs0 url fid hm hd hg hj hr']
        exact ⟨rfl, (post _).1, (post _).2.1, (post _).2.2⟩
    · have hgj' : (env.gunzipOk && env.jsonOk) = false := by simpa using hgj
      rw [tgs_fail_parse_eq env g0 fs0 url fid hm hd hgj']
      exact ⟨rfl, (post _).1, (post _).2.1, (post _).2.2⟩
  · have hd' : env.downloadOk = false := by simpa using hd
    rw [tgs_fail_download_eq env g0 fs0 url fid hm hd']
    exact ⟨rfl, (post _).1, (post _).2.1, (post _).2.2⟩

/-- Witness for C3: empty initial cache, non-gzip payload
(`pako.ungzip` fails). -/
theorem tgs_failure_null_cleanup_witness :
    (FS.has [] (.cacheFile (TgsHandler.generateHash (jsOr (some "id") "t") ++ ".gif")) = false ∧
     ((⟨true, false, true, none, 0, true, 0, true⟩ : TgsEnv).downloadOk = false ∨
      ((⟨true, false, true, none, 0, true, 0, true⟩ : TgsEnv).gunzipOk &&
       (⟨true, false, true, none, 0, true, 0, true⟩ : TgsEnv).jsonOk) = false ∨
      (⟨true, false, true, none, 0, true, 0, true⟩ : TgsEnv).renderOk = false ∨
      (⟨true, false, true, none, 0, true, 0, true⟩ : TgsEnv).encodeOk = false)) ∧
    ((TgsHandler.convertTgsToGif ⟨true, false, true, none, 0, true, 0, true⟩ false [] "t" (some "id")).result = none ∧
     readdirDir (TgsHandler.convertTgsToGif ⟨true, false, true, none, 0, true, 0, true⟩ false [] "t" (some "id")).fs
       ("tgs_" ++ TgsHandler.generateHash (jsOr (some "id") "t")) = [] ∧
     (TgsHandler.convertTgsToGif ⟨true, false, true, none, 0, true, 0, true⟩ false [] "t" (some "id")).fs.has
       (.tempSub ("tgs_" ++ TgsHandler.generateHash (jsOr (some "id") "t"))) = false ∧
     (TgsHandler.convertTgsToGif ⟨true, false, true, none, 0, true, 0, true⟩ false [] "t" (some "id")).fs.has
       (.cacheFile (TgsHandler.generateHash (jsOr (some "id") "t") ++ ".gif")) = false) :=
  ⟨⟨by decide, Or.inr (Or.inl rfl)⟩,
    tgs_failure_null_cleanup ⟨true, false, true, none, 0, true, 0, true⟩ false []
      "t" (some "id") (by decide) (Or.inr (Or.inl rfl))⟩


/-- C10: the TGS converter models the process-global DOM bindings
(`global.window`, `global.document`, `global.navigator`,
`global.requestAnimationFrame`, `global.cancelAnimationFrame`, installed and
deleted together) as `globalsInstalled`.  On a fully successful conversion
they are deleted before returning; on a failure after they were installed
(rasterization or encoding failure) they remain set while the call returns
its null result; on a failure before installation (download or
decompress/parse failure) the pre-call state is returned unchanged. -/
theorem tgs_global_bindings (env : TgsEnv) (g0 : Bool) (fs0 : FS)
    (url : String) (fid : Option String)
    (hm : fs0.has (.cacheFile (TgsHandler.generateHash (jsOr fid url) ++ ".gif")) = false) :
    (env.downloadOk = true → env.gunzipOk = true → env.jsonOk = true →
      env.renderOk = true → env.encodeOk = true →
      (TgsHandler.convertTgsToGif env g0 fs0 url fid).globalsInstalled = false) ∧
    (env.downloadOk = true → env.gunzipOk = true → env.jsonOk = true →
      (env.renderOk = false ∨ env.encodeOk = false) →
      (TgsHandler.convertTgsToGif env g0 fs0 url fid).result = none ∧
      (TgsHandler.convertTgsToGif env g0 fs0 url fid).globalsInstalled = true) ∧
    ((env.downloadOk = false ∨ (env.gunzipOk && env.jsonOk) = false) →
      (TgsHandler.convertTgsToGif env g0 fs0 url fid).globalsInstalled = g0) := by
  refine ⟨?_, ?_, ?_⟩
  · intro hd hg hj hr hc
    rw [tgs_success_eq env g0 fs0 url fid hm hd hg hj hr hc]
  · intro hd hg hj hro
    by_cases hr : env.renderOk = true
    · have hc : env.encodeOk = false := by
        rcases hro with h | h
        · rw [h] at hr; cases hr
        · exact h
      rw [tgs_fail_encode_eq env g0 fs0 url fid hm hd hg hj hr hc]
      exact ⟨rfl, rfl⟩
    · have hr' : env.renderOk = false := by simpa using hr
      rw [tgs_fail_render_eq env g0 fs0 url fid hm hd hg hj hr']
      exact ⟨rfl, rfl⟩
  · intro hpre
    by_cases hd : env.downloadOk = true
    · have hgj : (env.gunzipOk && env.jsonOk) = false := by
        rcases hpre with h | h
        · rw [h] at hd; cases hd
        · exact h
      rw [tgs_fail_parse_eq env g0 fs0 url fid hm hd hgj]
    · have hd' : env.downloadOk = false := by simpa using hd
      rw [tgs_fail_download_eq env g0 fs0 url fid hm hd']

/-- Witness for C10: empty initial cache, concrete environments exercising
the failure-after-installation clause (encoder failure). -/
theorem tgs_global_bindings_witness :
    FS.has [] (.cacheFile (TgsHandler.generateHash (jsOr (some "id") "t") ++ ".gif")) = false ∧
    ((⟨true, true, true, some 60, 2, true, 0, false⟩ : TgsEnv).downloadOk = true ∧
     (⟨true, true, true, some 60, 2, true, 0, false⟩ : TgsEnv).gunzipOk = true ∧
     (⟨true, true, true, some 60, 2, true, 0, false⟩ : TgsEnv).jsonOk = true ∧
     ((⟨true, true, true, some 60, 2, true, 0, false⟩ : TgsEnv).renderOk = false ∨
      (⟨true, true, true, some 60, 2, true, 0, false⟩ : TgsEnv).encodeOk = false)) ∧
    ((TgsHandler.convertTgsToGif ⟨true, true, true, some 60, 2, true, 0, false⟩ false [] "t" (some "id")).result = none ∧
     (TgsHandler.convertTgsToGif ⟨true, true, true, some 60, 2, true, 0, false⟩ false [] "t" (some "id")).globalsInstalled = true) :=
  ⟨by decide, ⟨rfl, rfl, rfl, Or.inr rfl⟩,
    (tgs_global_bindings ⟨true, true, true, some 60, 2, true, 0, false⟩ false []
      "t" (some "id") (by decide)).2.1 rfl rfl rfl (Or.inr rfl)⟩


/-- C5: the TGS frame stride is `max(1, round(nativeFrameRate / 50))`, giving
stride 1 both for a native rate of 60 and for 24; the rasterization loop
visits exactly the indices `0, step, 2*step, …` strictly below `totalFrames`,
in strictly ascending order, producing `ceil(totalFrames / step)` frames
(one numbered bitmap per visited index). -/
theorem tgs_frame_stride :
    tgsStep (some 60) = 1 ∧
    tgsStep (some 24) = 1 ∧
    (∀ fr : Option Nat, tgsStep fr = max 1 ((2 * frOr60 fr + 50) / 100)) ∧
    (∀ (fr : Option Nat) (total : Nat),
      frameIndices total (tgsStep fr) 0 =
        (List.range ((total + tgsStep fr - 1) / tgsStep fr)).map (· * tgsStep fr)) ∧
    (∀ (fr : Option Nat) (total : Nat),
      (frameIndices total (tgsStep fr) 0).length =
        (total + tgsStep fr - 1) / tgsStep fr) ∧
    (∀ (fr : Option Nat) (total : Nat),
      List.Pairwise (· < ·) (frameIndices total (tgsStep fr) 0)) ∧
    (∀ (fr : Option Nat) (total : Nat),
      (frameIndices total (tgsStep fr) 0).all (fun i => decide (i < total)) = true) := by
  have hs : ∀ fr : Option Nat, 0 < tgsStep fr := fun fr =>
    Nat.lt_of_lt_of_le Nat.one_pos (Nat.le_max_left 1 _)
  refine ⟨by decide, by decide, fun fr => rfl, fun fr total => ?_, fun fr total => ?_,
    fun fr total => ?_, fun fr total => ?_⟩
  · exact frameIndices_zero total (tgsStep fr) (hs fr)
  · rw [frameIndices_zero total (tgsStep fr) (hs fr)]
    simp
  · rw [frameIndices_zero total (tgsStep fr) (hs fr)]
    exact (List.pairwise_lt_range _).map _
      (fun a b h => (Nat.mul_lt_mul_right (hs fr)).mpr h)
  · rw [frameIndices_zero total (tgsStep fr) (hs fr), List.all_eq_true]
    intro x hx
    obtain ⟨j, hj, rfl⟩ := List.mem_map.mp hx
    rw [List.mem_range] at hj
    simp only [decide_eq_true_eq]
    have hks : ((total + tgsStep fr - 1) / tgsStep fr) * tgsStep fr ≤
        total + tgsStep fr - 1 := Nat.div_mul_le_self _ _
    have hj1 : (j + 1) * tgsStep fr ≤
        ((total + tgsStep fr - 1) / tgsStep fr) * tgsStep fr :=
      Nat.mul_le_mul_right _ (Nat.succ_le_of_lt hj)
    rw [Nat.succ_mul] at hj1
    have hstep := hs fr
    omega


/-- C6: when the cache entries exceed the budget, one sweep cycle leaves the
total size at most the budget; the deleted entries form the oldest prefix of
the entries sorted by last-modified time ascending (so deletion is
oldest-first and nothing is invented or lost); every deletion happened while
the remaining total still exceeded the budget (the minimum number of
oldest-first deletions); and an immediately repeated sweep deletes
nothing. -/
theorem cache_eviction_correct (B : Nat) (entries : List CacheEntry)
    (hover : B < sumSize entries) :
    sumSize (sweepCache B entries).1 ≤ B ∧
    (sweepCache B entries).2 ++ (sweepCache B entries).1 =
      entries.insertionSort byMtime ∧
    List.Sorted byMtime ((sweepCache B entries).2 ++ (sweepCache B entries).1) ∧
    ((sweepCache B entries).2 ++ (sweepCache B entries).1).Perm entries ∧
    (∀ j < (sweepCache B entries).2.length,
      B < sumSize ((entries.insertionSort byMtime).drop j)) ∧
    sweepCache B (sweepCache B entries).1 = ((sweepCache B entries).1, []) := by
  have hnle : ¬ sumSize entries ≤ B := Nat.not_le.mpr hover
  have hsw : sweepCache B entries =
      evictLoop B (sumSize (entries.insertionSort byMtime))
        (entries.insertionSort byMtime) := by
    simp only [sweepCache]
    rw [if_neg hnle]
  obtain ⟨h1, h2, h3⟩ :=
    evictLoop_spec B (entries.insertionSort byMtime)
      (sumSize (entries.insertionSort byMtime)) rfl
  rw [hsw]
  refine ⟨h2, h1, ?_, ?_, h3, ?_⟩
  · rw [h1]
    exact List.sorted_insertionSort byMtime entries
  · rw [h1]
    exact List.perm_insertionSort byMtime entries
  · simp only [sweepCache]
    rw [if_pos h2]

/-- Witness for C6 at a concrete over-budget cache: budget 5, three entries
of sizes 3, 4, 2 (total 9) with distinct modification times. -/
theorem cache_eviction_correct_witness :
    5 < sumSize [⟨"a", 3, 10⟩, ⟨"b", 4, 2⟩, ⟨"c", 2, 7⟩] ∧
    (sumSize (sweepCache 5 [⟨"a", 3, 10⟩, ⟨"b", 4, 2⟩, ⟨"c", 2, 7⟩]).1 ≤ 5 ∧
     (sweepCache 5 [⟨"a", 3, 10⟩, ⟨"b", 4, 2⟩, ⟨"c", 2, 7⟩]).2 ++
       (sweepCache 5 [⟨"a", 3, 10⟩, ⟨"b", 4, 2⟩, ⟨"c", 2, 7⟩]).1 =
       List.insertionSort byMtime [⟨"a", 3, 10⟩, ⟨"b", 4, 2⟩, ⟨"c", 2, 7⟩] ∧
     List.Sorted byMtime ((sweepCache 5 [⟨"a", 3, 10⟩, ⟨"b", 4, 2⟩, ⟨"c", 2, 7⟩]).2 ++
       (sweepCache 5 [⟨"a", 3, 10⟩, ⟨"b", 4, 2⟩, ⟨"c", 2, 7⟩]).1) ∧
     ((sweepCache 5 [⟨"a", 3, 10⟩, ⟨"b", 4, 2⟩, ⟨"c", 2, 7⟩]).2 ++
       (sweepCache 5 [⟨"a", 3, 10⟩, ⟨"b", 4, 2⟩, ⟨"c", 2, 7⟩]).1).Perm
       [⟨"a", 3, 10⟩, ⟨"b", 4, 2⟩, ⟨"c", 2, 7⟩] ∧
     (∀ j < (sweepCache 5 [⟨"a", 3, 10⟩, ⟨"b", 4, 2⟩, ⟨"c", 2, 7⟩]).2.length,
       5 < sumSize ((List.insertionSort byMtime
         [⟨"a", 3, 10⟩, ⟨"b", 4, 2⟩, ⟨"c", 2, 7⟩]).drop j)) ∧
     sweepCache 5 (sweepCache 5 [⟨"a", 3, 10⟩, ⟨"b", 4, 2⟩, ⟨"c", 2, 7⟩]).1 =
       ((sweepCache 5 [⟨"a", 3, 10⟩, ⟨"b", 4, 2⟩, ⟨"c", 2, 7⟩]).1, [])) :=
  ⟨by decide,
    cache_eviction_correct 5 [⟨"a", 3, 10⟩, ⟨"b", 4, 2⟩, ⟨"c", 2, 7⟩] (by decide)⟩


lemma md5Bytes_length (m : List Nat) : (md5Bytes m).length = 16 := by
  unfold md5Bytes
  rcases (md5Chunks (md5Pad m)).foldl md5Chunk
    (0x67452301, 0xefcdab89, 0x98badcfe, 0x10325476) with ⟨a, b, c, d⟩
  simp [leBytes]

lemma flatten_byteHex_length (l : List Nat) :
    ((l.map byteHex).flatten).length = 2 * l.length := by
  induction l with
  | nil => rfl
  | cons x t ih =>
      simp only [List.map_cons, List.flatten_cons, List.length_append,
        List.length_cons, byteHex, List.length_nil] at ih ⊢
      omega

lemma md5Hex_length (s : String) : (md5Hex s).length = 32 := by
  show (((md5Bytes (strBytes s)).map byteHex).flatten).length = 32
  rw [flatten_byteHex_length, md5Bytes_length]

/-- C7: every cached artifact lives in the single flat cache directory under
the name `<hash>.<ext>`: the hash is the 32-character hex MD5 digest of the
chosen identifier and the extension the converters use (`gif` for WEBM and
TGS, `webp` for static) is drawn from {gif, webp, png, jpg}; in particular a
WEBM conversion with stableId `"abc123"` returns
`<cacheDir>/<md5("abc123")>.gif`. -/
theorem cache_layout :
    (∀ s : String, (md5Hex s).length = 32) ∧
    md5Hex "abc123" = "e99a18c428cb38d5f260853678922e03" ∧
    (∀ n : String, (FPath.cacheFile n).str = cacheDir ++ "/" ++ n) ∧
    (∀ h : String, (FPath.cacheFile (h ++ ".gif")).str =
      cacheDir ++ "/" ++ h ++ ".gif") ∧
    (∀ h : String, (FPath.cacheFile (h ++ ".webp")).str =
      cacheDir ++ "/" ++ h ++ ".webp") ∧
    (∀ (env : WebmEnv) (fs : FS) (url : String) (fid : Option String),
      (WebmHandler.convertWebmToGif env fs url fid).result = .error () ∨
      (WebmHandler.convertWebmToGif env fs url fid).result =
        .ok (FPath.cacheFile (md5Hex (jsOr fid url) ++ ".gif")).str) ∧
    (∀ (env : TgsEnv) (g0 : Bool) (fs : FS) (url : String) (fid : Option String),
      (TgsHandler.convertTgsToGif env g0 fs url fid).result = none ∨
      (TgsHandler.convertTgsToGif env g0 fs url fid).result =
        some (FPath.cacheFile (md5Hex (jsOr fid url) ++ ".gif")).str) ∧
    (∀ (env : StaticEnv) (fs : FS) (url : String),
      (StaticHandler.resizeStaticImage env fs url).result = .error () ∨
      (StaticHandler.resizeStaticImage env fs url).result =
        .ok (FPath.cacheFile (md5Hex url ++ ".webp")).str) ∧
    (WebmHandler.convertWebmToGif ⟨true, true, 1, true⟩ []
        "https://example/file.webm" (some "abc123")).result =
      .ok (cacheDir ++ "/" ++ md5Hex "abc123" ++ ".gif") ∧
    cacheDir ++ "/" ++ md5Hex "abc123" ++ ".gif" =
      "gif-cache/e99a18c428cb38d5f260853678922e03.gif" ∧
    "gif" ∈ (["gif", "webp", "png", "jpg"] : List String) ∧
    "webp" ∈ (["gif", "webp", "png", "jpg"] : List String) := by
  refine ⟨md5Hex_length, by decide, fun n => rfl,
    fun h => by simp [FPath.str, String.append_assoc],
    fun h => by simp [FPath.str, String.append_assoc],
    webm_result_cases, tgs_result_cases, static_result_cases,
    by decide, by decide, by decide, by decide⟩


lemma has_del_self (X : FS) (p : FPath) : (X.del p).has p = false := by
  rw [has_eq_false_iff]
  intro h
  exact (mem_del.mp h).2 rfl

lemma static_fail_download_eq (env : StaticEnv) (fs0 : FS) (url : String)
    (hm : fs0.has (.cacheFile (StaticHandler.generateHash url ++ ".webp")) = false)
    (hd : env.downloadOk = false) :
    StaticHandler.resizeStaticImage env fs0 url =
      { result := .error (),
        fs := (fs0.del (.tempFile (StaticHandler.generateHash url ++ "_orig." ++
            StaticHandler.sniffExt url))).del
          (.cacheFile (StaticHandler.generateHash url ++ ".webp")),
        downloads := 1, execs := 0, cmds := [] } := by
  simp [StaticHandler.resizeStaticImage, hm, hd]

lemma static_fail_resize_eq (env : StaticEnv) (fs0 : FS) (url : String)
    (hm : fs0.has (.cacheFile (StaticHandler.generateHash url ++ ".webp")) = false)
    (hd : env.downloadOk = true) (hr : env.resizeOk = false) :
    StaticHandler.resizeStaticImage env fs0 url =
      { result := .error (),
        fs := ((fs0.add (.tempFile (StaticHandler.generateHash url ++ "_orig." ++
            StaticHandler.sniffExt url))).del
            (.tempFile (StaticHandler.generateHash url ++ "_orig." ++
              StaticHandler.sniffExt url))).del
          (.cacheFile (StaticHandler.generateHash url ++ ".webp")),
        downloads := 1, execs := 1,
        cmds := [StaticHandler.resizeCommand
          (FPath.tempFile (StaticHandler.generateHash url ++ "_orig." ++
            StaticHandler.sniffExt url)).str
          (FPath.cacheFile (StaticHandler.generateHash url ++ ".webp")).str] } := by
  simp [StaticHandler.resizeStaticImage, hm, hd, hr]

/-- C8: the format sniffed from the URL extension (`png`, `jpg`/`jpeg`, else
`webp`) names only the temporary download file; for every input URL the
cache artifact is the fixed-format `.webp` file, resized by the one external
command, whose `scale=256:-1` filter fixes a 256-pixel width with the aspect
ratio preserved. -/
theorem static_format_normalization (env : StaticEnv) (fs0 : FS) (url : String)
    (hm : fs0.has (.cacheFile (StaticHandler.generateHash url ++ ".webp")) = false)
    (h1 : env.downloadOk = true) (h2 : env.resizeOk = true) :
    (StaticHandler.resizeStaticImage env fs0 url).result =
      .ok (FPath.cacheFile (StaticHandler.generateHash url ++ ".webp")).str ∧
    (StaticHandler.resizeStaticImage env fs0 url).cmds =
      [StaticHandler.resizeCommand
        (FPath.tempFile (StaticHandler.generateHash url ++ "_orig." ++
          StaticHandler.sniffExt url)).str
        (FPath.cacheFile (StaticHandler.generateHash url ++ ".webp")).str] ∧
    (∀ a b : String, StaticHandler.resizeCommand a b =
      "ffmpeg -i \"" ++ a ++ "\" -vf \"scale=256:-1\" -y \"" ++ b ++ "\"") ∧
    StaticHandler.sniffExt "https://e/x.png" = "png" ∧
    StaticHandler.sniffExt "https://e/x.JPG" = "jpg" ∧
    StaticHandler.sniffExt "https://e/x.jpeg" = "jpg" ∧
    StaticHandler.sniffExt "https://e/x.gif" = "webp" := by
  rw [static_success_eq env fs0 url hm h1 h2]
  exact ⟨rfl, rfl, fun a b => rfl, by decide, by decide, by decide, by decide⟩

/-- Witness for C8 at url `"https://e/p.png"` on an empty cache. -/
theorem static_format_normalization_witness :
    (FS.has [] (.cacheFile (StaticHandler.generateHash "https://e/p.png" ++ ".webp")) = false ∧
     (⟨true, true⟩ : StaticEnv).downloadOk = true ∧
     (⟨true, true⟩ : StaticEnv).resizeOk = true) ∧
    ((StaticHandler.resizeStaticImage ⟨true, true⟩ [] "https://e/p.png").result =
      .ok (FPath.cacheFile (StaticHandler.generateHash "https://e/p.png" ++ ".webp")).str ∧
     (StaticHandler.resizeStaticImage ⟨true, true⟩ [] "https://e/p.png").cmds =
      [StaticHandler.resizeCommand
        (FPath.tempFile (StaticHandler.generateHash "https://e/p.png" ++ "_orig." ++
          StaticHandler.sniffExt "https://e/p.png")).str
        (FPath.cacheFile (StaticHandler.generateHash "https://e/p.png" ++ ".webp")).str] ∧
     StaticHandler.resizeCommand "a" "b" =
      "ffmpeg -i \"a\" -vf \"scale=256:-1\" -y \"b\"" ∧
     StaticHandler.sniffExt "https://e/x.png" = "png") :=
  ⟨⟨by decide, rfl, rfl⟩,
    (static_format_normalization ⟨true, true⟩ [] "https://e/p.png"
        (by decide) rfl rfl).1,
    (static_format_normalization ⟨true, true⟩ [] "https://e/p.png"
        (by decide) rfl rfl).2.1,
    ((static_format_normalization ⟨true, true⟩ [] "https://e/p.png"
        (by decide) rfl rfl).2.2.1 "a" "b").trans (by decide),
    (static_format_normalization ⟨true, true⟩ [] "https://e/p.png"
        (by decide) rfl rfl).2.2.2.1⟩

/-- C9: the static converter removes its temporary download on both success
and failure; on failure it additionally removes any partial cache artifact
for the key before propagating the error, so a failed static conversion
leaves no cache entry for that key. -/
theorem static_cleanup (env : StaticEnv) (fs0 : FS) (url : String)
    (hm : fs0.has (.cacheFile (StaticHandler.generateHash url ++ ".webp")) = false) :
    ((env.downloadOk = false ∨ env.resizeOk = false) →
      (StaticHandler.resizeStaticImage env fs0 url).result = .error () ∧
      (StaticHandler.resizeStaticImage env fs0 url).fs.has
        (.tempFile (StaticHandler.generateHash url ++ "_orig." ++
          StaticHandler.sniffExt url)) = false ∧
      (StaticHandler.resizeStaticImage env fs0 url).fs.has
        (.cacheFile (StaticHandler.generateHash url ++ ".webp")) = false) ∧
    (env.downloadOk = true → env.resizeOk = true →
      (StaticHandler.resizeStaticImage env fs0 url).result =
        .ok (FPath.cacheFile (StaticHandler.generateHash url ++ ".webp")).str ∧
      (StaticHandler.resizeStaticImage env fs0 url).fs.has
        (.tempFile (StaticHandler.generateHash url ++ "_orig." ++
          StaticHandler.sniffExt url)) = false) := by
  constructor
  · intro hf
    by_cases hd : env.downloadOk = true
    · have hr : env.resizeOk = false := by
        rcases hf with h | h
        · rw [h] at hd; cases hd
        · exact h
      rw [static_fail_resize_eq env fs0 url hm hd hr]
      exact ⟨rfl, has_del_chain_inner _ _ _, has_del_chain_outer _ _ _⟩
    · have hd' : env.downloadOk = false := by simpa using hd
      rw [static_fail_download_eq env fs0 url hm hd']
      exact ⟨rfl, has_del_chain_inner _ _ _, has_del_chain_outer _ _ _⟩
  · intro h1 h2
    rw [static_success_eq env fs0 url hm h1 h2]
    exact ⟨rfl, has_del_self _ _⟩

/-- Witness for C9: resize failure at url `"u"` on an empty cache. -/
theorem static_cleanup_witness :
    (FS.has [] (.cacheFile (StaticHandler.generateHash "u" ++ ".webp")) = false ∧
     ((⟨true, false⟩ : StaticEnv).downloadOk = false ∨
      (⟨true, false⟩ : StaticEnv).resizeOk = false)) ∧
    ((StaticHandler.resizeStaticImage ⟨true, false⟩ [] "u").result = .error () ∧
     (StaticHandler.resizeStaticImage ⟨true, false⟩ [] "u").fs.has
       (.tempFile (StaticHandler.generateHash "u" ++ "_orig." ++
         StaticHandler.sniffExt "u")) = false ∧
     (StaticHandler.resizeStaticImage ⟨true, false⟩ [] "u").fs.has
       (.cacheFile (StaticHandler.generateHash "u" ++ ".webp")) = false) :=
  ⟨⟨by decide, Or.inr rfl⟩,
    (static_cleanup ⟨true, false⟩ [] "u" (by decide)).1 (Or.inr rfl)⟩

end StickerBot
